import Mathlib

/-!
# Verification of the Subaru chapter-acquisition and image-stitching pipeline

Shallow embedding of the core of `src/downloader.py`: the image stitcher
(`ImageStitcher.stitch_images` / `ImageStitcher._create_stitched_image`), the
page locator (`MangaDownloader.get_chapter_url`), the two scraping strategies
(`MangaDownloader.scrape_with_requests` / `scrape_with_selenium`), and the
chapter pipeline (`MangaDownloader.download_chapter`).

Images are modelled by their decoded pixel dimensions; network and browser
effects are modelled as oracle parameters so that the pure control flow and
list algorithms of the source can be verified exactly.
-/

namespace Subaru

/-- A decoded raster image, modelled by its pixel dimensions
(`img.width`, `img.height` in the source; the RGB conversion at
src/downloader.py:266-267 does not change dimensions). -/
structure Img where
  width : Nat
  height : Nat
deriving DecidableEq, Repr

/-- One composite output of the stitcher: the canvas dimensions passed to
`ImageStitcher._create_stitched_image` (src/downloader.py:307-326) together
with the member images pasted top-to-bottom onto it. -/
structure StitchedPage where
  width : Nat
  height : Nat
  members : List Img
deriving DecidableEq, Repr

/-- Sum of the heights of a list of images. -/
def heightSum (l : List Img) : Nat := (l.map Img.height).sum

/-- The batching loop of `ImageStitcher.stitch_images`
(src/downloader.py:276-296): walk the images keeping a current batch `cur`
and its accumulated height `curH` (`current_images` / `current_height`);
before adding an image, if the accumulated height plus the image's height
exceeds `maxH` and the current batch is non-empty, close the batch
(recording the accumulated height passed to `_create_stitched_image`) and
start a new batch holding only this image; otherwise append the image and
add its height.  After the walk the remaining non-empty batch is closed. -/
def stitchGo (maxH : Nat) : List Img → Nat → List Img → List (List Img × Nat)
  | [], curH, cur => if cur = [] then [] else [(cur, curH)]
  | img :: rest, curH, cur =>
    if curH + img.height > maxH ∧ cur ≠ [] then
      (cur, curH) :: stitchGo maxH rest img.height [img]
    else
      stitchGo maxH rest (curH + img.height) (cur ++ [img])

/-- Model of `ImageStitcher._create_stitched_image` (src/downloader.py:307-326): a new
canvas of the given width and height with the batch members pasted in order.
The JPEG re-encoding does not change dimensions or member order. -/
def create_stitched_image (images : List Img) (width height : Nat) : StitchedPage :=
  ⟨width, height, images⟩

/-- Model of `ImageStitcher.stitch_images` (src/downloader.py:251-299): an empty input
yields no pages; otherwise `max_width` is computed once as the maximum width
over ALL input images (src/downloader.py:273) and every closed batch is
rendered at that width with its accumulated height. -/
def stitch_images (image_data_list : List Img) (max_height : Nat) : List StitchedPage :=
  if image_data_list = [] then []
  else
    let max_width := (image_data_list.map Img.width).foldl Nat.max 0
    (stitchGo max_height image_data_list 0 []).map
      (fun b => create_stitched_image b.1 max_width b.2)

/-- Spec scenario A (spec §8): heights 5000, 5000, 3000 with maxHeight 12000
give two pages of heights 10000 and 3000. -/
example :
    (stitch_images [⟨800, 5000⟩, ⟨800, 5000⟩, ⟨800, 3000⟩] 12000).map StitchedPage.height
      = [10000, 3000] := by decide

/-- Spec scenario B (spec §8): a single image of height 15000 with maxHeight
12000 gives one oversized page of height 15000. -/
example :
    (stitch_images [⟨800, 15000⟩] 12000).map StitchedPage.height = [15000] := by decide

/-- Flattening the batches produced by the stitching loop recovers the pending
batch followed by the remaining input. -/
theorem stitchGo_flatten (maxH : Nat) :
    ∀ (imgs : List Img) (curH : Nat) (cur : List Img),
      ((stitchGo maxH imgs curH cur).map Prod.fst).flatten = cur ++ imgs := by
  intro imgs
  induction imgs with
  | nil =>
    intro curH cur
    by_cases hc : cur = [] <;> simp [stitchGo, hc]
  | cons img rest ih =>
    intro curH cur
    by_cases hcond : curH + img.height > maxH ∧ cur ≠ []
    · simp [stitchGo, hcond, ih]
    · simp [stitchGo, hcond, ih]

/-- C3: Concatenating the member images of the pages produced by `stitch`, in
page order and top-to-bottom within each page, yields exactly the input images
in their original order, each appearing exactly once. -/
theorem stitch_preserves_order (imgs : List Img) (H : Nat) :
    ((stitch_images imgs H).map StitchedPage.members).flatten = imgs := by
  by_cases h : imgs = []
  · simp [stitch_images, h]
  · have hj := stitchGo_flatten H imgs 0 []
    simp only [stitch_images, if_neg h, List.map_map]
    simpa [Function.comp, create_stitched_image] using hj

/-- Modelled from the spec's words for claim C1 only: the width a page would
have if it were "the maximum width among only that page's own member images"
(spec §3).  Compared below against the width the source actually assigns. -/
def specMemberMaxWidth (members : List Img) : Nat :=
  (members.map Img.width).foldl Nat.max 0

/-- C1 counterexample: with images of widths 100 and 50 split into two pages
(heights 8 and 8, maxHeight 10), the second page has width 100 — the global
maximum — not 50, the maximum among its own members.  The claim as stated is
false of `stitch_images`. -/
theorem stitch_width_per_page_cex :
    ¬ (∀ p ∈ stitch_images [⟨100, 8⟩, ⟨50, 8⟩] 10,
        p.width = specMemberMaxWidth p.members) := by decide

/-- C1 amended: every page produced by `stitch_images` has width equal to the
maximum width over ALL input images (`max_width` at src/downloader.py:273 is
computed once, before batching, and passed to every
`_create_stitched_image` call). -/
theorem stitch_width_global (imgs : List Img) (H : Nat) :
    ∀ p ∈ stitch_images imgs H, p.width = (imgs.map Img.width).foldl Nat.max 0 := by
  intro p hp
  by_cases h : imgs = []
  · simp [stitch_images, h] at hp
  · simp only [stitch_images, if_neg h, List.mem_map] at hp
    obtain ⟨b, _, rfl⟩ := hp
    rfl

/-- Witness for `stitch_width_global` at a concrete input. -/
theorem stitch_width_global_witness :
    (⟨100, 8, [⟨100, 8⟩]⟩ : StitchedPage) ∈ stitch_images [⟨100, 8⟩, ⟨50, 8⟩] 10 ∧
    (⟨100, 8, [⟨100, 8⟩]⟩ : StitchedPage).width
      = (([⟨100, 8⟩, ⟨50, 8⟩] : List Img).map Img.width).foldl Nat.max 0 :=
  ⟨by decide, stitch_width_global [⟨100, 8⟩, ⟨50, 8⟩] 10 ⟨100, 8, [⟨100, 8⟩]⟩ (by decide)⟩

/-- The stitching loop's invariant: provided the accumulated height equals the
pending batch's total height and the pending batch is within bound or a
singleton, every closed batch is emitted with its exact total height and is
within bound or a singleton. -/
theorem stitchGo_inv (maxH : Nat) :
    ∀ (imgs cur : List Img) (curH : Nat), curH = heightSum cur →
      (curH ≤ maxH ∨ ∃ i, cur = [i]) →
      ∀ b h, (b, h) ∈ stitchGo maxH imgs curH cur →
        h = heightSum b ∧ (h ≤ maxH ∨ ∃ i, b = [i]) := by
  intro imgs
  induction imgs with
  | nil =>
    intro cur curH hsum hok b h hmem
    by_cases hc : cur = []
    · simp [stitchGo, hc] at hmem
    · simp only [stitchGo, if_neg hc, List.mem_singleton, Prod.mk.injEq] at hmem
      obtain ⟨rfl, rfl⟩ := hmem
      exact ⟨hsum, hok⟩
  | cons img rest ih =>
    intro cur curH hsum hok b h hmem
    by_cases hcond : curH + img.height > maxH ∧ cur ≠ []
    · simp only [stitchGo, if_pos hcond, List.mem_cons, Prod.mk.injEq] at hmem
      rcases hmem with ⟨rfl, rfl⟩ | hmem
      · exact ⟨hsum, hok⟩
      · exact ih [img] img.height (by simp [heightSum]) (Or.inr ⟨img, rfl⟩) b h hmem
    · simp only [stitchGo, if_neg hcond] at hmem
      have hnew : curH + img.height = heightSum (cur ++ [img]) := by
        simp [heightSum, hsum]
      rcases Decidable.not_and_iff_or_not.mp hcond with hle | hemp
      · exact ih (cur ++ [img]) (curH + img.height) hnew
          (Or.inl (Nat.le_of_not_lt hle)) b h hmem
      · have hc : cur = [] := Decidable.of_not_not hemp
        subst hc
        exact ih [img] (curH + img.height) hnew (Or.inr ⟨img, rfl⟩) b h hmem

/-- When the pending batch already exceeds the bound it is closed unchanged:
no further image can join it. -/
theorem stitchGo_closes_oversized (maxH : Nat) :
    ∀ (imgs cur : List Img) (curH : Nat), cur ≠ [] → maxH < curH →
      (cur, curH) ∈ stitchGo maxH imgs curH cur := by
  intro imgs
  induction imgs with
  | nil =>
    intro cur curH hc _
    simp [stitchGo, hc]
  | cons img rest _ =>
    intro cur curH hc hover
    have hcond : curH + img.height > maxH ∧ cur ≠ [] :=
      ⟨Nat.lt_of_lt_of_le hover (Nat.le_add_right _ _), hc⟩
    simp [stitchGo, hcond]

/-- Every over-height image in the remaining input is emitted as a singleton
batch carrying exactly its own height. -/
theorem stitchGo_oversized_alone (maxH : Nat) :
    ∀ (imgs cur : List Img) (curH : Nat), curH = heightSum cur →
      ∀ img ∈ imgs, maxH < img.height →
        ([img], img.height) ∈ stitchGo maxH imgs curH cur := by
  intro imgs
  induction imgs with
  | nil =>
    intro cur curH _ img hmem
    simp at hmem
  | cons a rest ih =>
    intro cur curH hsum img hmem hover
    rcases List.mem_cons.mp hmem with rfl | hmem
    · by_cases hcond : curH + img.height > maxH ∧ cur ≠ []
      · simp only [stitchGo, if_pos hcond]
        exact List.mem_cons_of_mem _
          (stitchGo_closes_oversized maxH rest [img] img.height (by simp)
            (by simpa [heightSum] using hover))
      · simp only [stitchGo, if_neg hcond]
        rcases Decidable.not_and_iff_or_not.mp hcond with hle | hemp
        · exact absurd (Nat.lt_of_lt_of_le hover (Nat.le_add_left _ _))
            (by simpa using hle)
        · have hc : cur = [] := Decidable.of_not_not hemp
          subst hc
          have h0 : curH = 0 := by simpa [heightSum] using hsum
          subst h0
          simpa using stitchGo_closes_oversized maxH rest [img] img.height (by simp)
            (by simpa [heightSum] using hover)
    · by_cases hcond : curH + a.height > maxH ∧ cur ≠ []
      · simp only [stitchGo, if_pos hcond]
        exact List.mem_cons_of_mem _
          (ih [a] a.height (by simp [heightSum]) img hmem hover)
      · simp only [stitchGo, if_neg hcond]
        exact ih (cur ++ [a]) (curH + a.height) (by simp [heightSum, hsum]) img hmem hover

/-- C2: every page produced by `stitch` has total height at most `H`, except a
page whose sole member is a single image taller than `H`; and every input
image taller than `H` forms its own one-member page of exactly its height
(never split across pages, no error). -/
theorem stitch_height_bound (imgs : List Img) (H : Nat) :
    (∀ p ∈ stitch_images imgs H,
        p.height ≤ H ∨ ∃ img, p.members = [img] ∧ H < img.height ∧ p.height = img.height)
    ∧ (∀ img ∈ imgs, H < img.height →
        ∃ p ∈ stitch_images imgs H, p.members = [img] ∧ p.height = img.height) := by
  constructor
  · intro p hp
    by_cases h : imgs = []
    · simp [stitch_images, h] at hp
    · simp only [stitch_images, if_neg h, List.mem_map] at hp
      obtain ⟨⟨b, hb⟩, hmem, rfl⟩ := hp
      have := stitchGo_inv H imgs [] 0 (by simp [heightSum]) (Or.inl (Nat.zero_le _))
        b hb hmem
      rcases this with ⟨rfl, hbound | ⟨i, rfl⟩⟩
      · exact Or.inl hbound
      · by_cases hle : heightSum [i] ≤ H
        · exact Or.inl hle
        · refine Or.inr ⟨i, rfl, ?_, by simp [heightSum, create_stitched_image]⟩
          have : heightSum [i] = i.height := by simp [heightSum]
          omega
  · intro img hmem hover
    have h : imgs ≠ [] := by
      intro h
      subst h
      simp at hmem
    have hb := stitchGo_oversized_alone H imgs [] 0 (by simp [heightSum]) img hmem hover
    refine ⟨create_stitched_image [img] ((imgs.map Img.width).foldl Nat.max 0) img.height,
      ?_, rfl, rfl⟩
    simp only [stitch_images, if_neg h, List.mem_map]
    exact ⟨([img], img.height), hb, rfl⟩

/-- Witness for `stitch_height_bound` at a concrete input: a single image of
height 15 with maxHeight 12 forms its own oversized one-member page. -/
theorem stitch_height_bound_witness :
    ∃ p ∈ stitch_images [⟨5, 15⟩] 12, p.members = [⟨5, 15⟩] ∧ p.height = 15 :=
  (stitch_height_bound [⟨5, 15⟩] 12).2 ⟨5, 15⟩ (by decide) (by decide)

/-- Test `startsAt pat s` : the character list `s` starts with `pat`. -/
def startsAt : List Char → List Char → Bool
  | [], _ => true
  | _ :: _, [] => false
  | p :: ps, c :: cs => p == c && startsAt ps cs

/-- Test `subOccurs pat s` : `pat` occurs contiguously inside `s`
(Python's `pat in s` on strings). -/
def subOccurs (pat : List Char) : List Char → Bool
  | [] => pat.isEmpty
  | c :: cs => startsAt pat (c :: cs) || subOccurs pat cs

/-- Python's `pat in s` membership test on strings. -/
def strHasSub (s pat : String) : Bool := subOccurs pat.data s.data

theorem startsAt_append (pat t : List Char) : startsAt pat (pat ++ t) = true := by
  induction pat with
  | nil => rfl
  | cons p ps ih => simp [startsAt, ih]

theorem subOccurs_middle (a pat t : List Char) : subOccurs pat (a ++ pat ++ t) = true := by
  induction a with
  | nil =>
    cases hp : pat with
    | nil =>
      cases t with
      | nil => rfl
      | cons c cs => simp [subOccurs, startsAt]
    | cons p ps =>
      simp only [subOccurs, List.nil_append, Bool.or_eq_true]
      exact Or.inl (by simpa using startsAt_append (p :: ps) t)
  | cons x xs ih =>
    simp only [subOccurs, List.cons_append, List.append_assoc, Bool.or_eq_true]
    exact Or.inr (by simpa [List.append_assoc] using ih)

/-- True when the list leads with a decimal digit. -/
def digitLeads : List Char → Bool
  | c :: _ => c.isDigit
  | [] => false

/-- Leftmost-match scanner for the regexes `titleId=(\d+)` and
`title_no=(\d+)` (src/downloader.py:412, 417): find the first position where
the literal `lit` occurs immediately followed by at least one digit, and
capture the maximal digit run after the literal. -/
def findNumAfter (lit : List Char) : List Char → Option (List Char)
  | [] => none
  | c :: cs =>
    if startsAt lit (c :: cs) && digitLeads ((c :: cs).drop lit.length) then
      some (((c :: cs).drop lit.length).takeWhile Char.isDigit)
    else findNumAfter lit cs

/-- The `titleId=(\d+)` capture of `re.search` (src/downloader.py:412). -/
def findTitleId (base_url : String) : Option String :=
  (findNumAfter "titleId=".data base_url.data).map String.mk

/-- The `title_no=(\d+)` capture of `re.search` (src/downloader.py:417). -/
def findTitleNo (base_url : String) : Option String :=
  (findNumAfter "title_no=".data base_url.data).map String.mk

/-- ASCII `[a-zA-Z0-9]`. -/
def isAlnumAscii (c : Char) : Bool := c.isAlpha || c.isDigit

/-- Leads with an ASCII alphanumeric character. -/
def alnumLeads : List Char → Bool
  | c :: _ => isAlnumAscii c
  | [] => false

/-- One attempted match, at the current position, of the regex
`product[/?](?:periodic\?id=)?([a-zA-Z0-9]+)` (src/downloader.py:423):
the literal `product` (7 characters), one of `/` or `?`, then — greedily —
the optional literal `periodic?id=` (12 characters) provided an alphanumeric
capture can follow it, else the capture starts right after the separator.
Backtracking over the optional group is reflected in the second branch. -/
def productCodeAt (s : List Char) : Option (List Char) :=
  if startsAt "product".data s then
    match s.drop 7 with
    | d :: rest =>
      if d == '/' || d == '?' then
        if startsAt "periodic?id=".data rest && alnumLeads (rest.drop 12) then
          some ((rest.drop 12).takeWhile isAlnumAscii)
        else if alnumLeads rest then
          some (rest.takeWhile isAlnumAscii)
        else none
      else none
    | [] => none
  else none

/-- Leftmost-match search for the LINE product-code regex
(src/downloader.py:423): try each start position left to right. -/
def findProductCode : List Char → Option (List Char)
  | [] => none
  | c :: cs =>
    match productCodeAt (c :: cs) with
    | some r => some r
    | none => findProductCode cs

/-- Model of `MangaDownloader.get_chapter_url` (src/downloader.py:409-427): pure string
transformation; site dispatch is by substring membership on the site label,
checked in order Naver, Webtoons.com, LINE; a recognized site whose base URL
lacks the expected token, or an unrecognized site, yields no URL. -/
def get_chapter_url (site base_url : String) (ep_num : Nat) : Option String :=
  if strHasSub site "Naver" then
    match findTitleId base_url with
    | some tid =>
      some ("https://comic.naver.com/webtoon/detail?titleId=" ++ tid ++ "&no="
        ++ toString ep_num)
    | none => none
  else if strHasSub site "Webtoons.com" then
    match findTitleNo base_url with
    | some title_no =>
      some ("https://www.webtoons.com/en/detail/" ++ title_no ++ "/" ++ toString ep_num
        ++ "?title_no=" ++ title_no)
    | none => none
  else if strHasSub site "LINE" then
    match (findProductCode base_url.data).map String.mk with
    | some code =>
      some ("https://manga.line.me/product/" ++ code ++ "/chapter/" ++ toString ep_num)
    | none => none
  else none

example :
    get_chapter_url "Naver Webtoon" "https://comic.naver.com/webtoon/list?titleId=812354" 7
      = some "https://comic.naver.com/webtoon/detail?titleId=812354&no=7" := by decide

example :
    get_chapter_url "LINE Manga" "https://manga.line.me/product/periodic?id=Z0000012" 3
      = some "https://manga.line.me/product/Z0000012/chapter/3" := by decide

example : get_chapter_url "AC.QQ" "https://ac.qq.com/Comic/comicInfo/id/1" 3 = none := by decide

/-- A pattern occurring at the end of a string is found by `strHasSub`. -/
theorem strHasSub_append_end (x y : String) : strHasSub (x ++ y) y = true := by
  have h := subOccurs_middle x.data y.data []
  simpa [strHasSub, String.data_append] using h

/-- A pattern occurring in the middle of a string is found by `strHasSub`. -/
theorem strHasSub_parts (x y z : String) : strHasSub (x ++ y ++ z) y = true := by
  have h := subOccurs_middle x.data y.data z.data
  simpa [strHasSub, String.data_append] using h

/-- Variant of `strHasSub_parts` for four appended segments. -/
theorem strHasSub_parts4 (x y z w : String) : strHasSub (x ++ y ++ z ++ w) y = true := by
  have h := subOccurs_middle x.data y.data (z.data ++ w.data)
  simpa [strHasSub, String.data_append, List.append_assoc] using h

/-- C6: with no network access, `get_chapter_url` yields a URL containing the
chapter number verbatim whenever it yields one at all, and it yields one
exactly when the site label is recognized (in the source's dispatch order
Naver, Webtoons.com, LINE) and the base URL matches that site's token pattern
(titleId, title_no, product code); otherwise it reports no URL. -/
theorem get_chapter_url_spec (site base_url : String) (n : Nat) :
    ((get_chapter_url site base_url n).all fun url => strHasSub url (toString n)) = true
    ∧ (get_chapter_url site base_url n).isSome =
        (strHasSub site "Naver" && (findTitleId base_url).isSome
          || !strHasSub site "Naver" && strHasSub site "Webtoons.com"
              && (findTitleNo base_url).isSome
          || !strHasSub site "Naver" && !strHasSub site "Webtoons.com"
              && strHasSub site "LINE" && (findProductCode base_url.data).isSome) := by
  cases hn : strHasSub site "Naver" with
  | true =>
    cases hf : findTitleId base_url with
    | none => simp [get_chapter_url, hn, hf]
    | some tid =>
      refine ⟨?_, by simp [get_chapter_url, hn, hf]⟩
      simp only [get_chapter_url, hn, if_true, hf, Option.all_some]
      exact strHasSub_append_end ("https://comic.naver.com/webtoon/detail?titleId="
        ++ tid ++ "&no=") (toString n)
  | false =>
    cases hw : strHasSub site "Webtoons.com" with
    | true =>
      cases hf : findTitleNo base_url with
      | none => simp [get_chapter_url, hn, hw, hf]
      | some title_no =>
        refine ⟨?_, by simp [get_chapter_url, hn, hw, hf]⟩
        simp only [get_chapter_url, hn, hw, Bool.false_eq_true, if_false, if_true, hf,
          Option.all_some]
        exact strHasSub_parts4 ("https://www.webtoons.com/en/detail/" ++ title_no ++ "/")
          (toString n) "?title_no=" title_no
    | false =>
      cases hl : strHasSub site "LINE" with
      | true =>
        cases hf : findProductCode base_url.data with
        | none => simp [get_chapter_url, hn, hw, hl, hf]
        | some code =>
          refine ⟨?_, by simp [get_chapter_url, hn, hw, hl, hf]⟩
          simp only [get_chapter_url, hn, hw, hl, Bool.false_eq_true, if_false, if_true,
            hf, Option.map_some, Option.all_some]
          exact strHasSub_append_end ("https://manga.line.me/product/"
            ++ String.mk code ++ "/chapter/") (toString n)
      | false => simp [get_chapter_url, hn, hw, hl]

/-- The walk underlying Python's `list(dict.fromkeys(xs))`
(src/downloader.py:446, 487): keys are inserted in order and a key already
seen is skipped. -/
def dedupGo (seen : List String) : List String → List String
  | [] => []
  | x :: rest => if x ∈ seen then dedupGo seen rest else x :: dedupGo (x :: seen) rest

/-- Python's `list(dict.fromkeys(xs))`: drop every later duplicate, keeping
first occurrences in order. -/
def dedupFirst (xs : List String) : List String := dedupGo [] xs

/-- Modelled from the spec's words for claim C4: "the output list contains
each distinct URL exactly once, in order of first appearance" — append each
URL to the output the first time it is encountered. -/
def specKeepFirsts (xs : List String) : List String :=
  xs.foldl (fun acc x => if x ∈ acc then acc else acc ++ [x]) []

theorem dedupGo_congr :
    ∀ (xs s₁ s₂ : List String), (∀ a, a ∈ s₁ ↔ a ∈ s₂) → dedupGo s₁ xs = dedupGo s₂ xs := by
  intro xs
  induction xs with
  | nil => intro s₁ s₂ _; rfl
  | cons x rest ih =>
    intro s₁ s₂ hiff
    by_cases hx : x ∈ s₁
    · rw [dedupGo, dedupGo, if_pos hx, if_pos ((hiff x).mp hx)]
      exact ih s₁ s₂ hiff
    · rw [dedupGo, dedupGo, if_neg hx, if_neg (fun h => hx ((hiff x).mpr h))]
      exact congrArg _ (ih (x :: s₁) (x :: s₂) (by simp [hiff _]))

theorem foldl_keepFirsts :
    ∀ (xs acc : List String),
      xs.foldl (fun acc x => if x ∈ acc then acc else acc ++ [x]) acc
        = acc ++ dedupGo acc xs := by
  intro xs
  induction xs with
  | nil => intro acc; simp [dedupGo]
  | cons x rest ih =>
    intro acc
    by_cases hx : x ∈ acc
    · simp only [List.foldl_cons, if_pos hx, dedupGo, ih]
    · simp only [List.foldl_cons, if_neg hx, dedupGo, ih]
      rw [dedupGo_congr rest (acc ++ [x]) (x :: acc) (by intro a; simp; tauto)]
      simp

/-- Python's `dict.fromkeys` realises the spec's first-occurrence deduplication. -/
theorem dedupFirst_eq_specKeepFirsts (xs : List String) :
    dedupFirst xs = specKeepFirsts xs := by
  have h := foldl_keepFirsts xs []
  simpa [specKeepFirsts, dedupFirst] using h.symm

theorem dedupGo_not_seen :
    ∀ (xs seen : List String) (a : String), a ∈ dedupGo seen xs → a ∉ seen := by
  intro xs
  induction xs with
  | nil => intro seen a h; simp [dedupGo] at h
  | cons x rest ih =>
    intro seen a h
    by_cases hx : x ∈ seen
    · rw [dedupGo, if_pos hx] at h
      exact ih seen a h
    · rw [dedupGo, if_neg hx] at h
      rcases List.mem_cons.mp h with rfl | h
      · exact hx
      · intro ha
        exact ih (x :: seen) a h (List.mem_cons_of_mem _ ha)

theorem dedupGo_nodup : ∀ (xs seen : List String), (dedupGo seen xs).Nodup := by
  intro xs
  induction xs with
  | nil => intro seen; simp [dedupGo]
  | cons x rest ih =>
    intro seen
    by_cases hx : x ∈ seen
    · rw [dedupGo, if_pos hx]; exact ih seen
    · rw [dedupGo, if_neg hx]
      refine List.nodup_cons.mpr ⟨fun hmem => ?_, ih (x :: seen)⟩
      exact dedupGo_not_seen rest (x :: seen) x hmem (List.mem_cons_self _ _)

theorem dedupFirst_nodup (xs : List String) : (dedupFirst xs).Nodup :=
  dedupGo_nodup xs []

/-- One `<img>` element with its `src` and `data-src` attributes (absent
attributes are `none`). -/
structure ImgTag where
  src : Option String
  dataSrc : Option String
deriving DecidableEq, Repr

/-- The parsed markup visible to `scrape_with_requests`
(src/downloader.py:432-446): the `<img>` children of the `wt_viewer`
container when that container exists, and the page-wide `find_all('img')`
enumeration. -/
structure Soup where
  wtViewerImgs : Option (List ImgTag)
  allImgs : List ImgTag
deriving DecidableEq, Repr

/-- Python truthiness of an optional string attribute: `None` and the empty
string are falsy. -/
def truthyAttr : Option String → Option String
  | some s => if s = "" then none else some s
  | none => none

/-- Python's `a or b` over optional string attributes, as used under a
subsequent truthiness guard: the first truthy operand, if any. -/
def firstTruthy (a b : Option String) : Option String :=
  match truthyAttr a with
  | some s => some s
  | none => truthyAttr b

/-- The Naver branch of `scrape_with_requests` (src/downloader.py:436-439):
`[img.get('src') for img in viewer.find_all('img') if img.get('src')]` —
document order, no deduplication. -/
def naver_viewer_srcs (imgs : List ImgTag) : List String :=
  imgs.filterMap (fun t => truthyAttr t.src)

/-- The LINE branch's candidate stream (src/downloader.py:442-445):
`data-src` or `src`, kept when it mentions one of the two CDN hosts. -/
def line_candidates (imgs : List ImgTag) : List String :=
  imgs.filterMap (fun t =>
    match firstTruthy t.dataSrc t.src with
    | some s =>
      if strHasSub s "line-scdn" || strHasSub s "obs.line" then some s else none
    | none => none)

/-- Model of `MangaDownloader.scrape_with_requests` (src/downloader.py:429-452) on the
parsed markup: the Naver branch collects viewer sources without
deduplication, the LINE branch deduplicates its candidates with
`dict.fromkeys`, any other site leaves the list empty. -/
def scrape_with_requests (soup : Soup) (site : String) : List String :=
  if strHasSub site "Naver" then
    match soup.wtViewerImgs with
    | some viewer => naver_viewer_srcs viewer
    | none => []
  else if strHasSub site "LINE" then
    dedupFirst (line_candidates soup.allImgs)
  else []

/-- The harvest loop of `scrape_with_selenium` (src/downloader.py:479-485):
`src` or `data-src`, minimum length 51, and for Webtoons.com only real CDN
URLs that are not stubs; for any other site every long URL is kept. -/
def selenium_candidates (imgs : List ImgTag) (site : String) : List String :=
  imgs.filterMap (fun t =>
    match firstTruthy t.src t.dataSrc with
    | some s =>
      if s.length > 50 then
        if strHasSub site "Webtoons.com" then
          if strHasSub s "cdn.webtoon" && !strHasSub s "stub" then some s else none
        else some s
      else none
    | none => none)

/-- Model of `MangaDownloader.scrape_with_selenium` (src/downloader.py:454-492) after
the page has been scrolled and the `<img>` elements enumerated: the harvested
candidates deduplicated with `dict.fromkeys` (src/downloader.py:487). -/
def scrape_with_selenium (imgs : List ImgTag) (site : String) : List String :=
  dedupFirst (selenium_candidates imgs site)

/-- C4 counterexample: a Naver viewer that repeats an image source is returned
with the repetition intact — the Naver static branch never deduplicates, so
the output does not contain each distinct URL exactly once. -/
theorem scrape_dedup_cex :
    scrape_with_requests ⟨some [⟨some "a", none⟩, ⟨some "a", none⟩], []⟩ "Naver"
      = ["a", "a"]
    ∧ ¬ (scrape_with_requests ⟨some [⟨some "a", none⟩, ⟨some "a", none⟩], []⟩
          "Naver").Nodup := by
  constructor
  · rfl
  · decide

/-- C4 amended: the LINE static branch and the browser-automation strategy
return each distinct URL exactly once, in order of first appearance, over
their respective candidate streams; the Naver static branch instead returns
the viewer's sources in document order without deduplication (see
`scrape_dedup_cex`). -/
theorem scrape_dedup_amended :
    (∀ (soup : Soup) (site : String),
        strHasSub site "Naver" = false → strHasSub site "LINE" = true →
          scrape_with_requests soup site = specKeepFirsts (line_candidates soup.allImgs)
          ∧ (scrape_with_requests soup site).Nodup)
    ∧ (∀ (imgs : List ImgTag) (site : String),
        scrape_with_selenium imgs site = specKeepFirsts (selenium_candidates imgs site)
        ∧ (scrape_with_selenium imgs site).Nodup) := by
  constructor
  · intro soup site hn hl
    simp only [scrape_with_requests, hn, Bool.false_eq_true, if_false, hl, if_true]
    exact ⟨dedupFirst_eq_specKeepFirsts _, dedupFirst_nodup _⟩
  · intro imgs site
    exact ⟨dedupFirst_eq_specKeepFirsts _, dedupFirst_nodup _⟩

/-- Witness for `scrape_dedup_amended` at a concrete input: a LINE page whose
markup repeats one CDN URL. -/
theorem scrape_dedup_amended_witness :
    scrape_with_requests
        ⟨none, [⟨none, some "https://obs.line/a"⟩, ⟨none, some "https://obs.line/a"⟩]⟩
        "LINE Manga"
      = specKeepFirsts (line_candidates
          [⟨none, some "https://obs.line/a"⟩, ⟨none, some "https://obs.line/a"⟩])
    ∧ (scrape_with_requests
        ⟨none, [⟨none, some "https://obs.line/a"⟩, ⟨none, some "https://obs.line/a"⟩]⟩
        "LINE Manga").Nodup :=
  scrape_dedup_amended.1
    ⟨none, [⟨none, some "https://obs.line/a"⟩, ⟨none, some "https://obs.line/a"⟩]⟩
    "LINE Manga" (by decide) (by decide)

/-- The value returned by `MangaDownloader.download_chapter`: either the
ordered stitched pages (the `(stitched_images, None)` tuple) or a failure
reason string (the `(None, reason)` tuple). -/
inductive ChapterResult (Page : Type) where
  | done (pages : List Page)
  | failed (reason : String)
deriving DecidableEq, Repr

/-- One `if progress_callback: await progress_callback(msg)` site: the
callback, when supplied, transforms its own observer state; otherwise
nothing happens. -/
def report {σ : Type} (cb : Option (σ → String → σ)) (s : σ) (msg : String) : σ :=
  match cb with
  | some f => f s msg
  | none => s

/-- Model of `MangaDownloader.download_chapter` (src/downloader.py:507-549).
The effectful stages are oracle parameters: `scrapeSelenium` and
`scrapeRequests` give the image URLs a scrape of a given (url, site) returns,
`download_image` gives the raw bytes a single fetch returns (`none` models a
non-200 status or transport error, src/downloader.py:494-505), and `stitch`
gives the stitcher's output on the successfully fetched images (an empty
result models the decode-error path of src/downloader.py:301-305).  The
optional progress callback is a state transformer on an observer state. -/
def download_chapter {Raw Page σ : Type}
    (scrapeSelenium scrapeRequests : String → String → List String)
    (download_image : String × String → Option Raw)
    (stitch : List Raw → List Page)
    (site base_url : String) (chapter_num : Nat)
    (progress_callback : Option (σ → String → σ)) (s₀ : σ) :
    ChapterResult Page × σ :=
  match get_chapter_url site base_url chapter_num with
  | none => (.failed "Invalid URL format", s₀)
  | some chapter_url =>
    let s₁ := report progress_callback s₀
      ("🔍 Fetching chapter " ++ toString chapter_num ++ "...")
    let use_selenium := strHasSub site "Webtoons.com" || strHasSub site "AC.QQ"
    let images := if use_selenium then scrapeSelenium chapter_url site
      else scrapeRequests chapter_url site
    if images.isEmpty then (.failed "No images found or chapter locked", s₁)
    else
      let s₂ := report progress_callback s₁
        ("📥 Downloading " ++ toString images.length ++ " images...")
      let tasks := images.map (fun img_url => (img_url, chapter_url))
      let results := tasks.map download_image
      let image_data := results.filterMap id
      if image_data.isEmpty then (.failed "Failed to download images", s₂)
      else
        let s₃ := report progress_callback s₂
          ("🧵 Stitching " ++ toString image_data.length ++ " images...")
        let stitched_images := stitch image_data
        if stitched_images.isEmpty then (.failed "Failed to stitch images", s₃)
        else (.done stitched_images, s₃)

/-- The result component of the pipeline, callback-free: used to factor the
proofs below. -/
def download_chapter_result {Raw Page : Type}
    (scrapeSelenium scrapeRequests : String → String → List String)
    (download_image : String × String → Option Raw)
    (stitch : List Raw → List Page)
    (site base_url : String) (chapter_num : Nat) : ChapterResult Page :=
  match get_chapter_url site base_url chapter_num with
  | none => .failed "Invalid URL format"
  | some chapter_url =>
    let use_selenium := strHasSub site "Webtoons.com" || strHasSub site "AC.QQ"
    let images := if use_selenium then scrapeSelenium chapter_url site
      else scrapeRequests chapter_url site
    if images.isEmpty then .failed "No images found or chapter locked"
    else
      let image_data := (images.map (fun img_url => (img_url, chapter_url))).map
        download_image |>.filterMap id
      if image_data.isEmpty then .failed "Failed to download images"
      else
        let stitched_images := stitch image_data
        if stitched_images.isEmpty then .failed "Failed to stitch images"
        else .done stitched_images

/-- The pipeline's result never depends on the observer state or callback. -/
theorem download_chapter_fst {Raw Page σ : Type}
    (scrapeSelenium scrapeRequests : String → String → List String)
    (download_image : String × String → Option Raw)
    (stitch : List Raw → List Page)
    (site base_url : String) (chapter_num : Nat)
    (cb : Option (σ → String → σ)) (s₀ : σ) :
    (download_chapter scrapeSelenium scrapeRequests download_image stitch
        site base_url chapter_num cb s₀).1
      = download_chapter_result scrapeSelenium scrapeRequests download_image stitch
          site base_url chapter_num := by
  unfold download_chapter download_chapter_result
  cases get_chapter_url site base_url chapter_num with
  | none => rfl
  | some chapter_url =>
    simp only [apply_ite Prod.fst]

/-- C9: the ChapterResult returned by the pipeline is identical whether the
optional progress callback is supplied or omitted, and for every supplied
callback and observer state: the observer is purely informational and cannot
change the pipeline's result. -/
theorem download_chapter_callback_independent {Raw Page σ σ' : Type}
    (scrapeSelenium scrapeRequests : String → String → List String)
    (download_image : String × String → Option Raw)
    (stitch : List Raw → List Page)
    (site base_url : String) (chapter_num : Nat)
    (cb : Option (σ → String → σ)) (s₀ : σ)
    (cb' : Option (σ' → String → σ')) (s₀' : σ') :
    (download_chapter scrapeSelenium scrapeRequests download_image stitch
        site base_url chapter_num cb s₀).1
      = (download_chapter scrapeSelenium scrapeRequests download_image stitch
          site base_url chapter_num cb' s₀').1 := by
  rw [download_chapter_fst, download_chapter_fst]

/-- Stage analysis of the callback-free pipeline result, shared by the
theorems below: the failure reason of the first failing stage, the success
equation, and the impossibility of an empty success. -/
theorem download_chapter_result_stages {Raw Page : Type}
    (scrapeSelenium scrapeRequests : String → String → List String)
    (download_image : String × String → Option Raw)
    (stitch : List Raw → List Page)
    (site base_url : String) (chapter_num : Nat) :
    let r := download_chapter_result scrapeSelenium scrapeRequests download_image stitch
      site base_url chapter_num
    (get_chapter_url site base_url chapter_num = none →
        r = .failed "Invalid URL format")
    ∧ (∀ chapter_url, get_chapter_url site base_url chapter_num = some chapter_url →
        let images := if strHasSub site "Webtoons.com" || strHasSub site "AC.QQ"
          then scrapeSelenium chapter_url site else scrapeRequests chapter_url site
        let image_data := (images.map fun u => download_image (u, chapter_url)).filterMap id
        (images = [] → r = .failed "No images found or chapter locked")
        ∧ (images ≠ [] → image_data = [] → r = .failed "Failed to download images")
        ∧ (images ≠ [] → image_data ≠ [] → stitch image_data = [] →
            r = .failed "Failed to stitch images")
        ∧ (images ≠ [] → image_data ≠ [] → stitch image_data ≠ [] →
            r = .done (stitch image_data)))
    ∧ (∀ pages, r = .done pages → pages ≠ []) := by
  intro r
  have hr : r = download_chapter_result scrapeSelenium scrapeRequests download_image stitch
      site base_url chapter_num := rfl
  refine ⟨?_, ?_, ?_⟩
  · intro h0
    rw [hr]
    unfold download_chapter_result
    rw [h0]
  · intro chapter_url hurl
    intro images image_data
    have hdef : r = (if images.isEmpty then
          (.failed "No images found or chapter locked" : ChapterResult Page)
        else if image_data.isEmpty then .failed "Failed to download images"
        else if (stitch image_data).isEmpty then .failed "Failed to stitch images"
        else .done (stitch image_data)) := by
      rw [hr]
      unfold download_chapter_result
      rw [hurl]
      simp only [List.map_map, Function.comp_def, images, image_data]
    refine ⟨?_, ?_, ?_, ?_⟩
    · intro h1
      rw [hdef]
      simp [h1]
    · intro h1 h2
      rw [hdef]
      simp [h1, h2]
    · intro h1 h2 h3
      rw [hdef]
      simp [h1, h2, h3]
    · intro h1 h2 h3
      rw [hdef]
      simp [h1, h2, h3]
  · intro pages hdone
    rw [hr] at hdone
    unfold download_chapter_result at hdone
    cases hg : get_chapter_url site base_url chapter_num with
    | none => rw [hg] at hdone; cases hdone
    | some chapter_url =>
      rw [hg] at hdone
      dsimp only at hdone
      repeat' split at hdone
      all_goals first
        | (rename_i hne
           obtain rfl := ChapterResult.done.inj hdone
           exact fun hp => hne (by rw [hp]; rfl))
        | cases hdone

/-- C5: the pipeline returns exactly the failure reason of the first failing
stage — invalid URL from the locator, empty scrape, zero fetch successes,
empty stitcher output — and otherwise succeeds carrying the stitcher's
non-empty output; no empty page list is ever reported as success. -/
theorem download_chapter_stage_outcomes {Raw Page σ : Type}
    (scrapeSelenium scrapeRequests : String → String → List String)
    (download_image : String × String → Option Raw)
    (stitch : List Raw → List Page)
    (site base_url : String) (chapter_num : Nat)
    (cb : Option (σ → String → σ)) (s₀ : σ) :
    (get_chapter_url site base_url chapter_num = none →
        (download_chapter scrapeSelenium scrapeRequests download_image stitch
          site base_url chapter_num cb s₀).1 = .failed "Invalid URL format")
    ∧ (∀ chapter_url, get_chapter_url site base_url chapter_num = some chapter_url →
        let images := if strHasSub site "Webtoons.com" || strHasSub site "AC.QQ"
          then scrapeSelenium chapter_url site else scrapeRequests chapter_url site
        let image_data := (images.map fun u => download_image (u, chapter_url)).filterMap id
        (images = [] →
          (download_chapter scrapeSelenium scrapeRequests download_image stitch
            site base_url chapter_num cb s₀).1 = .failed "No images found or chapter locked")
        ∧ (images ≠ [] → image_data = [] →
          (download_chapter scrapeSelenium scrapeRequests download_image stitch
            site base_url chapter_num cb s₀).1 = .failed "Failed to download images")
        ∧ (images ≠ [] → image_data ≠ [] → stitch image_data = [] →
          (download_chapter scrapeSelenium scrapeRequests download_image stitch
            site base_url chapter_num cb s₀).1 = .failed "Failed to stitch images")
        ∧ (images ≠ [] → image_data ≠ [] → stitch image_data ≠ [] →
          (download_chapter scrapeSelenium scrapeRequests download_image stitch
            site base_url chapter_num cb s₀).1 = .done (stitch image_data)))
    ∧ (∀ pages,
        (download_chapter scrapeSelenium scrapeRequests download_image stitch
          site base_url chapter_num cb s₀).1 = .done pages → pages ≠ []) := by
  have hr := download_chapter_fst scrapeSelenium scrapeRequests download_image stitch
    site base_url chapter_num cb s₀
  simp only [hr]
  exact download_chapter_result_stages scrapeSelenium scrapeRequests download_image stitch
    site base_url chapter_num

/-- Witness for `download_chapter_stage_outcomes` at concrete oracles: a
recognized Naver request whose scrape yields one URL, whose fetch succeeds,
and whose stitcher returns one page, is reported as success. -/
theorem download_chapter_stage_outcomes_witness :
    (download_chapter (fun _ _ => ["s"]) (fun _ _ => ["u"]) (fun _ => some 0)
        (fun l => [l.length]) "Naver" "x?titleId=5" 3 none ()).1 = .done [1] := by
  have h := (download_chapter_stage_outcomes (fun _ _ => ["s"]) (fun _ _ => ["u"])
    (fun _ => some 0) (fun l => [l.length]) "Naver" "x?titleId=5" 3 none ()).2.1
    "https://comic.naver.com/webtoon/detail?titleId=5&no=3" (by decide)
  exact h.2.2.2 (by decide) (by decide) (by decide)

/-- Order-preserving filtering: the successful fetches, wrapped back in
`some`, form a subsequence of the per-position fetch results. -/
theorem filterMap_id_map_some_sublist {α : Type} :
    ∀ l : List (Option α), ((l.filterMap id).map some).Sublist l := by
  intro l
  induction l with
  | nil => simp
  | cons a t ih =>
    cases a with
    | none =>
      simp only [List.filterMap_cons, id_eq]
      exact List.Sublist.cons none ih
    | some x =>
      simp only [List.filterMap_cons, id_eq, List.map_cons]
      exact List.Sublist.cons₂ (some x) ih

/-- The number of surviving fetches equals the number of successes. -/
theorem filterMap_id_length_countP {α : Type} :
    ∀ l : List (Option α), (l.filterMap id).length = l.countP (fun o => o.isSome) := by
  intro l
  induction l with
  | nil => simp
  | cons a t ih =>
    cases a with
    | none => simp [List.filterMap_cons, List.countP_cons, ih]
    | some x => simp [List.filterMap_cons, List.countP_cons, ih]

/-- C7: of K fetched URLs, the successes survive as an order-preserving
subsequence (never a reorder) and are exactly as many as the individual
successes; when at least one fetch succeeds the pipeline proceeds to
stitching with precisely those successes; when every fetch fails the
pipeline fails with the fetch-failure reason for every stitcher — it never
reaches stitching. -/
theorem download_chapter_fetch_filter {Raw Page σ : Type}
    (scrapeSelenium scrapeRequests : String → String → List String)
    (download_image : String × String → Option Raw)
    (stitch : List Raw → List Page)
    (site base_url : String) (chapter_num : Nat)
    (cb : Option (σ → String → σ)) (s₀ : σ)
    (chapter_url : String)
    (hurl : get_chapter_url site base_url chapter_num = some chapter_url) :
    let images := if strHasSub site "Webtoons.com" || strHasSub site "AC.QQ"
      then scrapeSelenium chapter_url site else scrapeRequests chapter_url site
    let fetchResults := images.map fun u => download_image (u, chapter_url)
    let successes := fetchResults.filterMap id
    (successes.map some).Sublist fetchResults
    ∧ successes.length = fetchResults.countP (fun o => o.isSome)
    ∧ (images ≠ [] → successes = [] →
        (download_chapter scrapeSelenium scrapeRequests download_image stitch
            site base_url chapter_num cb s₀).1 = .failed "Failed to download images")
    ∧ (successes ≠ [] → stitch successes = [] →
        (download_chapter scrapeSelenium scrapeRequests download_image stitch
            site base_url chapter_num cb s₀).1 = .failed "Failed to stitch images")
    ∧ (successes ≠ [] → stitch successes ≠ [] →
        (download_chapter scrapeSelenium scrapeRequests download_image stitch
            site base_url chapter_num cb s₀).1 = .done (stitch successes)) := by
  intro images fetchResults successes
  have hstage := (download_chapter_result_stages scrapeSelenium scrapeRequests
    download_image stitch site base_url chapter_num).2.1 chapter_url hurl
  simp only [] at hstage
  obtain ⟨ha, hb, hc, hd⟩ := hstage
  have hfst := download_chapter_fst scrapeSelenium scrapeRequests download_image stitch
    site base_url chapter_num cb s₀
  refine ⟨filterMap_id_map_some_sublist fetchResults,
    filterMap_id_length_countP fetchResults, ?_, ?_, ?_⟩
  · intro h1 h2
    rw [hfst]
    exact hb h1 h2
  · intro h2 h3
    have h1 : images ≠ [] := by
      intro h
      apply h2
      simp [successes, fetchResults, h]
    rw [hfst]
    exact hc h1 h2 h3
  · intro h2 h3
    have h1 : images ≠ [] := by
      intro h
      apply h2
      simp [successes, fetchResults, h]
    rw [hfst]
    exact hd h1 h2 h3

/-- Witness for `download_chapter_fetch_filter` at concrete oracles: of two
scraped URLs one fetch fails and one succeeds, and the pipeline stitches the
single success. -/
theorem download_chapter_fetch_filter_witness :
    (download_chapter (fun _ _ => ["a", "b"]) (fun _ _ => ["a", "b"])
        (fun p => if p.1 = "b" then some 7 else none)
        (fun l => [l.length]) "Naver" "x?titleId=5" 3 none ()).1 = .done [1] := by
  have h := (download_chapter_fetch_filter (fun _ _ => ["a", "b"]) (fun _ _ => ["a", "b"])
    (fun p => if p.1 = "b" then some 7 else none) (fun l => [l.length])
    "Naver" "x?titleId=5" 3 none ()
    "https://comic.naver.com/webtoon/detail?titleId=5&no=3" (by decide)).2.2.2.2
  exact h (by decide) (by decide)

/-- C10: a site label containing none of the recognized substrings fails at
the locating stage with "Invalid URL format", for every base URL, chapter
number, scraping oracle, fetch oracle and stitcher — scraping is never
consulted. -/
theorem unrecognized_site_invalid_url {Raw Page σ : Type}
    (scrapeSelenium scrapeRequests : String → String → List String)
    (download_image : String × String → Option Raw)
    (stitch : List Raw → List Page)
    (site base_url : String) (chapter_num : Nat)
    (cb : Option (σ → String → σ)) (s₀ : σ)
    (hn : strHasSub site "Naver" = false)
    (hw : strHasSub site "Webtoons.com" = false)
    (hl : strHasSub site "LINE" = false) :
    (download_chapter scrapeSelenium scrapeRequests download_image stitch
        site base_url chapter_num cb s₀).1 = .failed "Invalid URL format" := by
  have hg : get_chapter_url site base_url chapter_num = none := by
    simp [get_chapter_url, hn, hw, hl]
  rw [download_chapter_fst]
  unfold download_chapter_result
  rw [hg]

/-- Witness for `unrecognized_site_invalid_url`: the AC.QQ site label, which
the strategy table routes to browser automation, still fails at the locating
stage. -/
theorem unrecognized_site_invalid_url_witness :
    (download_chapter (fun _ _ => ["s"]) (fun _ _ => ["r"]) (fun _ => some 0)
        (fun l => [l.length]) "AC.QQ" "https://ac.qq.com/Comic/comicInfo/id/1" 1
        none ()).1 = .failed "Invalid URL format" :=
  unrecognized_site_invalid_url (fun _ _ => ["s"]) (fun _ _ => ["r"]) (fun _ => some 0)
    (fun l => [l.length]) "AC.QQ" "https://ac.qq.com/Comic/comicInfo/id/1" 1
    none () (by decide) (by decide) (by decide)

/-- The operations performed on the shared browser session. -/
inductive BrowserOp where
  | acquireDriverLock
  | releaseDriverLock
  | navigate
  | waitForContent
  | readScrollHeight
  | scrollTo
  | harvestImgTags
deriving DecidableEq, Repr

/-- Projection of `MangaDownloader.scrape_with_selenium`
(src/downloader.py:454-492) onto the operations it performs on the shared
browser session `self.driver`: navigate (line 461), the Webtoons-only bounded
wait (463-467), reading the document height (469), the incremental scroll
loop (470-473, `scrollSteps` iterations determined by the page height)
followed by the final scroll to the bottom, and the img-element harvest
(477-485).  `MangaDownloader.__init__` (src/downloader.py:337) creates
`self.driver_lock`, whose acquire/release would appear in this trace — the
body performs neither. -/
def scrape_with_selenium_ops (site : String) (scrollSteps : Nat) : List BrowserOp :=
  [.navigate]
    ++ (if strHasSub site "Webtoons.com" then [.waitForContent] else [])
    ++ [.readScrollHeight]
    ++ List.replicate scrollSteps .scrollTo
    ++ [.scrollTo, .harvestImgTags]

/-- C8 evidence: for every site and page height, the navigate-scroll-harvest
sequence acquires and releases `driver_lock` zero times — concurrent chapter
pipelines sharing the single browser session are not serialized by the code,
although the lock it would need is created in `__init__`. -/
theorem scrape_with_selenium_no_lock (site : String) (scrollSteps : Nat) :
    (scrape_with_selenium_ops site scrollSteps).count BrowserOp.acquireDriverLock = 0
    ∧ (scrape_with_selenium_ops site scrollSteps).count BrowserOp.releaseDriverLock = 0 := by
  have h1 : (BrowserOp.scrollTo == BrowserOp.acquireDriverLock) = false := by decide
  have h2 : (BrowserOp.scrollTo == BrowserOp.releaseDriverLock) = false := by decide
  by_cases hw : strHasSub site "Webtoons.com" = true <;>
    constructor <;>
      simp [scrape_with_selenium_ops, hw, List.count_append, List.count_replicate,
        List.count_cons, h1, h2]

end Subaru
